import Mathlib

/-!
Shallow embedding of `horizons/messaging/messagebus.py` (Unknown Horizons).

The file models the three buses of the source module:

* `MessageBus` (spec: CoreBus): global and sender-local subscription
  registries with synchronous dispatch;
* `QueuingMessageBus` (spec: QueuingBus): additionally retains messages that
  had no matching subscriber in a per-type FIFO queue and replays them on
  subscription;
* `SimpleMessageBus` (spec: TypedBus): a closed vocabulary of type tags with
  direct subscribe/broadcast.

Modelling conventions:

* Message classes (`message.__class__`), sender objects, callback objects
  and payloads are identified by natural numbers.
* The Python `defaultdict(list)` registries become total functions from keys
  to lists; a key that was never stored is identified with a key storing the
  empty list.  This is observationally faithful: reading a missing key
  yields the empty list in both views (`defaultdict.__getitem__` inserts and
  returns a fresh empty list).  Consequently the guard
  `pair in self.local_receivers and callback in self.local_receivers[pair]`
  of `discard_locally` collapses to its second conjunct, because a present
  key holding an empty list fails the second conjunct anyway.
* Callback invocation is recorded in a trace of (callback, message) pairs.
  The dispatch loops of `MessageBus.broadcast` and
  `SimpleMessageBus.broadcast` iterate over the live receiver list exactly
  as a CPython `for` loop over a list does (by increasing index, re-reading
  the list each step); the behaviour of the callbacks themselves is a
  parameter `env`, and a potentially unbounded loop is cut off by fuel,
  returning `none` when the fuel runs out.
* A failing `assert`, and uncaught `ValueError` / `TypeError` / `Exception`
  raises, are modelled by `Option` / `Except` results.
-/

abbrev MessageType := Nat

abbrev Callback := Nat

/-- A message value: `type` models `message.__class__` (the routing key used
by `broadcast`), `sender` models `message.sender`, and `payload` stands for
the remaining content of the message object, so that distinct message
objects can be told apart. -/
structure Message where
  type : MessageType
  sender : Nat
  payload : Nat
  deriving DecidableEq

/-- State of `MessageBus`: the two subscription registries set up in
`MessageBus.__init__`. -/
@[ext] structure MBState where
  global_receivers : MessageType → List Callback
  local_receivers : MessageType × Nat → List Callback

/-- `MessageBus.subscribe_globally`: append the callback to the global list
of the message type. -/
def MessageBus.subscribe_globally (t : MessageType) (cb : Callback) (s : MBState) : MBState :=
  { s with global_receivers :=
      Function.update s.global_receivers t (s.global_receivers t ++ [cb]) }

/-- `MessageBus.subscribe_locally`: append the callback to the local list of
the pair (message type, instance). -/
def MessageBus.subscribe_locally (t : MessageType) (inst : Nat) (cb : Callback)
    (s : MBState) : MBState :=
  { s with local_receivers :=
      Function.update s.local_receivers (t, inst) (s.local_receivers (t, inst) ++ [cb]) }

/-- `MessageBus.unsubscribe_globally`: `assert callback in ...` then
`list.remove(callback)` (which drops the first occurrence).  A failing
assert is `none`. -/
def MessageBus.unsubscribe_globally (t : MessageType) (cb : Callback) (s : MBState) :
    Option MBState :=
  if cb ∈ s.global_receivers t then
    some { s with global_receivers :=
        Function.update s.global_receivers t ((s.global_receivers t).erase cb) }
  else
    none

/-- `MessageBus.unsubscribe_locally`: the local analogue of
`unsubscribe_globally`. -/
def MessageBus.unsubscribe_locally (t : MessageType) (inst : Nat) (cb : Callback)
    (s : MBState) : Option MBState :=
  if cb ∈ s.local_receivers (t, inst) then
    some { s with local_receivers :=
        Function.update s.local_receivers (t, inst) ((s.local_receivers (t, inst)).erase cb) }
  else
    none

/-- `MessageBus.discard_globally`: call `unsubscribe_globally` only when the
callback is registered; the guard guarantees the inner call succeeds, so
`getD s` is never exercised with `none`. -/
def MessageBus.discard_globally (t : MessageType) (cb : Callback) (s : MBState) : MBState :=
  if cb ∈ s.global_receivers t then (MessageBus.unsubscribe_globally t cb s).getD s else s

/-- `MessageBus.discard_locally`: guard
`pair in self.local_receivers and callback in self.local_receivers[pair]`,
collapsed to the second conjunct under the total-function registry view (see
the module docstring), then `unsubscribe_locally`. -/
def MessageBus.discard_locally (t : MessageType) (inst : Nat) (cb : Callback)
    (s : MBState) : MBState :=
  if cb ∈ s.local_receivers (t, inst) then
    (MessageBus.unsubscribe_locally t inst cb s).getD s
  else
    s

/-- The events produced by one run of `MessageBus.broadcast` when no invoked
callback mutates the bus: the global pass in registration order, then the
local pass in registration order.  `broadcastLive_inert` proves that the
live dispatch loop of the source produces exactly this trace (and leaves the
state unchanged) for inert callbacks. -/
def dispatchTrace (s : MBState) (m : Message) : List (Callback × Message) :=
  (s.global_receivers m.type).map (fun cb => (cb, m))
    ++ (s.local_receivers (m.type, m.sender)).map (fun cb => (cb, m))

/-- CPython semantics of `for callback in lst: ...` where `lst` is a list
attribute of the (mutable) state: the iterator walks by increasing index and
re-reads the list object at each step, so elements appended during the loop
are visited and removals shift later elements under the iterator.  `fuel`
bounds the number of steps; `none` models a loop that did not finish within
the fuel. -/
def pyForLive {σ : Type} (get : σ → List Callback) (step : Callback → σ → σ) :
    Nat → Nat → σ → Option (σ × List Callback)
  | 0, _, _ => none
  | fuel + 1, i, s =>
    if h : i < (get s).length then
      match pyForLive get step fuel (i + 1) (step ((get s).get ⟨i, h⟩) s) with
      | some (s2, tr) => some (s2, (get s).get ⟨i, h⟩ :: tr)
      | none => none
    else
      some (s, [])

/-- `MessageBus.broadcast`: run the live `for` loop over the global
receivers of `message.__class__`, then over the local receivers of
`(message.__class__, message.sender)`.  `env cb s m` is the effect of the
call `callback(message)` on the bus state. -/
def MessageBus.broadcastLive (env : Callback → MBState → Message → MBState) (fuel : Nat)
    (s : MBState) (m : Message) : Option (MBState × List (Callback × Message)) :=
  match pyForLive (fun st => st.global_receivers m.type) (fun cb st => env cb st m) fuel 0 s with
  | none => none
  | some (s1, tr1) =>
    match pyForLive (fun st => st.local_receivers (m.type, m.sender))
        (fun cb st => env cb st m) fuel 0 s1 with
    | none => none
    | some (s2, tr2) => some (s2, (tr1 ++ tr2).map (fun cb => (cb, m)))

/-- A callback environment in which no callback mutates the bus. -/
def inertEnv : Callback → MBState → Message → MBState := fun _ s _ => s

/-- Reference dispatch from the spec: both matching callback lists are
snapshotted at the start of `broadcast` and the snapshots are dispatched,
so mutations performed by the callbacks cannot change the in-progress
dispatch. -/
def snapshotDispatch (env : Callback → MBState → Message → MBState) (s : MBState)
    (m : Message) : MBState × List (Callback × Message) :=
  let gl := s.global_receivers m.type
  let ll := s.local_receivers (m.type, m.sender)
  let s1 := gl.foldl (fun st cb => env cb st m) s
  let s2 := ll.foldl (fun st cb => env cb st m) s1
  (s2, (gl ++ ll).map (fun cb => (cb, m)))

/-- State of `QueuingMessageBus`: the inherited registries plus the per-type
pending queue. -/
@[ext] structure QMBState where
  bus : MBState
  message_queue : MessageType → List Message

/-- `QueuingMessageBus.broadcast` for callbacks that do not mutate the bus:
if both matching receiver lists are empty, append the message to its type's
queue; otherwise delegate to `MessageBus.broadcast`, whose effect for inert
callbacks is no state change and the trace `dispatchTrace`
(`broadcastLive_inert`). -/
def QueuingMessageBus.broadcast (s : QMBState) (m : Message) :
    QMBState × List (Callback × Message) :=
  if (s.bus.global_receivers m.type).length = 0
      ∧ (s.bus.local_receivers (m.type, m.sender)).length = 0 then
    ({ s with message_queue :=
        Function.update s.message_queue m.type (s.message_queue m.type ++ [m]) }, [])
  else
    (s, dispatchTrace s.bus m)

/-- `QueuingMessageBus.clear`: drop all pending messages of one type. -/
def QueuingMessageBus.clear (t : MessageType) (s : QMBState) : QMBState :=
  { s with message_queue := Function.update s.message_queue t [] }

/-- `QueuingMessageBus.queue_len`. -/
def QueuingMessageBus.queue_len (t : MessageType) (s : QMBState) : Nat :=
  (s.message_queue t).length

/-- The replay loop of `QueuingMessageBus.subscribe_globally`:
`while len(self.message_queue[messagetype]): self.broadcast(self.message_queue[messagetype].popleft())`.
Each iteration pops the head of the queue and re-broadcasts it through
`QueuingMessageBus.broadcast`.  `fuel` bounds the number of iterations;
`none` models a loop that did not finish within the fuel. -/
def drainFuel (t : MessageType) : Nat → QMBState → Option (QMBState × List (Callback × Message))
  | 0, s => if s.message_queue t = [] then some (s, []) else none
  | fuel + 1, s =>
    match s.message_queue t with
    | [] => some (s, [])
    | m :: rest =>
      let s1 : QMBState := { s with message_queue := Function.update s.message_queue t rest }
      let p := QueuingMessageBus.broadcast s1 m
      match drainFuel t fuel p.1 with
      | some q => some (q.1, p.2 ++ q.2)
      | none => none

/-- `QueuingMessageBus.subscribe_globally`: register as `MessageBus` does,
then run the replay loop on the type's queue. -/
def QueuingMessageBus.subscribe_globally (fuel : Nat) (t : MessageType) (cb : Callback)
    (s : QMBState) : Option (QMBState × List (Callback × Message)) :=
  drainFuel t fuel { s with bus := MessageBus.subscribe_globally t cb s.bus }

/-- First component of the filter of `QueuingMessageBus.subscribe_locally`:
the source compares `(message, message.sender) == (messagetype, instance)`,
whose first component compares the message object itself with the message
class.  A class and one of its instances are distinct objects, and neither
defines an equality making them equal, so this comparison is always false
in Python; the embedding records that fact. -/
def messageEqualsClass (_m : Message) (_t : MessageType) : Bool := false

/-- The filter `(message, message.sender) == (messagetype, instance)` of
`QueuingMessageBus.subscribe_locally`, as tuple-component conjunction. -/
def localReplayCond (m : Message) (t : MessageType) (inst : Nat) : Bool :=
  messageEqualsClass m t && (m.sender == inst)

/-- The replay loop of `QueuingMessageBus.subscribe_locally`:
`for message in self.message_queue[messagetype]: if ...: self.broadcast(message); self.message_queue[messagetype].remove(message)`.
The loop visits the entries of the queue; the embedding walks the sequence
of entries present at loop start, which is faithful here because the filter
is identically false, so the body never mutates the queue mid-iteration (in
CPython a mutation would moreover raise, since a `deque` refuses iteration
after mutation). -/
def QueuingMessageBus.localReplayLoop (t : MessageType) (inst : Nat) :
    List Message → QMBState → QMBState × List (Callback × Message)
  | [], s => (s, [])
  | m :: rest, s =>
    if localReplayCond m t inst then
      let p := QueuingMessageBus.broadcast s m
      let s2 : QMBState := { p.1 with
        message_queue := Function.update p.1.message_queue t ((p.1.message_queue t).erase m) }
      let q := QueuingMessageBus.localReplayLoop t inst rest s2
      (q.1, p.2 ++ q.2)
    else
      QueuingMessageBus.localReplayLoop t inst rest s

/-- `QueuingMessageBus.subscribe_locally`: register as `MessageBus` does,
then run the (dead, see `messageEqualsClass`) replay loop on the type's
queue. -/
def QueuingMessageBus.subscribe_locally (t : MessageType) (inst : Nat) (cb : Callback)
    (s : QMBState) : QMBState × List (Callback × Message) :=
  let s1 : QMBState := { s with bus := MessageBus.subscribe_locally t inst cb s.bus }
  QueuingMessageBus.localReplayLoop t inst (s1.message_queue t) s1

/-- Dispatch a list of messages in order through
`QueuingMessageBus.broadcast`, accumulating the trace.  This is the
dispatch phase shared by the snapshot-then-clear reference algorithms. -/
def broadcastList : QMBState → List Message → QMBState × List (Callback × Message)
  | s, [] => (s, [])
  | s, m :: rest =>
    let p := QueuingMessageBus.broadcast s m
    let q := broadcastList p.1 rest
    (q.1, p.2 ++ q.2)

/-- Reference algorithm from the spec for `subscribe_globally`: register,
snapshot the type's whole pending queue, clear it, and only then dispatch
each drained message in FIFO order. -/
def refSubscribeGlobally (t : MessageType) (cb : Callback) (s : QMBState) :
    QMBState × List (Callback × Message) :=
  let s1 : QMBState := { s with bus := MessageBus.subscribe_globally t cb s.bus }
  broadcastList (QueuingMessageBus.clear t s1) (s1.message_queue t)

/-- Reference algorithm from the spec for `subscribe_locally`: register,
drain the pending entries whose sender equals the newly subscribed instance
into a temporary sequence, remove them from the live queue first (keeping
the relative order of the remaining entries), and only then dispatch each
drained message. -/
def refSubscribeLocally (t : MessageType) (inst : Nat) (cb : Callback) (s : QMBState) :
    QMBState × List (Callback × Message) :=
  let s1 : QMBState := { s with bus := MessageBus.subscribe_locally t inst cb s.bus }
  let pending := s1.message_queue t
  let matching := pending.filter (fun m => m.sender == inst)
  let remaining := pending.filter (fun m => !(m.sender == inst))
  broadcastList
    { s1 with message_queue := Function.update s1.message_queue t remaining } matching

/-- State of `SimpleMessageBus`: the recognized-type collection fixed at
construction and the callback registry. -/
@[ext] structure SMBState where
  message_types : List Nat
  callbacks : Nat → List Callback

/-- The two failure modes of `SimpleMessageBus.subscribe`: the `TypeError`
for an unrecognized type and the `Exception` for a duplicate
subscription. -/
inductive SubscribeError where
  | unsupportedType
  | duplicateSubscription
  deriving DecidableEq

/-- `SimpleMessageBus.subscribe`: raise for an unrecognized type, raise for
a duplicate subscription, otherwise append the callback.  Both raises
happen before any mutation. -/
def SimpleMessageBus.subscribe (t : Nat) (cb : Callback) (s : SMBState) :
    Except SubscribeError SMBState :=
  if t ∉ s.message_types then
    Except.error SubscribeError.unsupportedType
  else if cb ∈ s.callbacks t then
    Except.error SubscribeError.duplicateSubscription
  else
    Except.ok { s with callbacks := Function.update s.callbacks t (s.callbacks t ++ [cb]) }

/-- `SimpleMessageBus.unsubscribe`: bare `list.remove(callback)`, which
raises `ValueError` when the callback is absent (modelled by `none`) and
otherwise drops the first occurrence. -/
def SimpleMessageBus.unsubscribe (t : Nat) (cb : Callback) (s : SMBState) : Option SMBState :=
  if cb ∈ s.callbacks t then
    some { s with callbacks := Function.update s.callbacks t ((s.callbacks t).erase cb) }
  else
    none

/-- `SimpleMessageBus.discard`: remove only when present; the guard
guarantees the inner call succeeds, so `getD s` is never exercised with
`none`. -/
def SimpleMessageBus.discard (t : Nat) (cb : Callback) (s : SMBState) : SMBState :=
  if cb ∈ s.callbacks t then (SimpleMessageBus.unsubscribe t cb s).getD s else s

/-- `SimpleMessageBus.broadcast`: silently return for an unrecognized type,
otherwise run the live `for` loop over the type's callbacks, passing the
payload to each.  `env cb s p` is the effect of `cb(*args, **kwargs)` on the
bus state. -/
def SimpleMessageBus.broadcastLive (env : Callback → SMBState → Nat → SMBState) (fuel : Nat)
    (s : SMBState) (t : Nat) (payload : Nat) : Option (SMBState × List (Callback × Nat)) :=
  if t ∉ s.message_types then
    some (s, [])
  else
    match pyForLive (fun st => st.callbacks t) (fun cb st => env cb st payload) fuel 0 s with
    | some (s1, tr) => some (s1, tr.map (fun cb => (cb, payload)))
    | none => none

/-- A `SimpleMessageBus` callback environment in which no callback mutates
the bus. -/
def smbInertEnv : Callback → SMBState → Nat → SMBState := fun _ s _ => s

/-- Reference dispatch from the spec for `SimpleMessageBus.broadcast`: the
callback list is snapshotted at the start of `broadcast`. -/
def smbSnapshotDispatch (env : Callback → SMBState → Nat → SMBState) (s : SMBState)
    (t : Nat) (payload : Nat) : SMBState × List (Callback × Nat) :=
  if t ∉ s.message_types then
    (s, [])
  else
    let cbs := s.callbacks t
    (cbs.foldl (fun st cb => env cb st payload) s, cbs.map (fun cb => (cb, payload)))

/-! Concrete states used by witnesses and counterexamples. -/

/-- An empty `MessageBus`, as after `__init__`. -/
def mbEmpty : MBState :=
  { global_receivers := fun _ => [], local_receivers := fun _ => [] }

/-- An empty `QueuingMessageBus`, as after `__init__`. -/
def qmbEmpty : QMBState :=
  { bus := mbEmpty, message_queue := fun _ => [] }

/-- A `SimpleMessageBus` over types 0 and 1 with callback 5 subscribed to
type 0. -/
def smbEx : SMBState :=
  { message_types := [0, 1], callbacks := Function.update (fun _ => []) 0 [5] }

/-- A message of class 0 from sender 4. -/
def msgC2 : Message := { type := 0, sender := 4, payload := 1 }

/-- A `QueuingMessageBus` with `msgC2` pending and no subscribers. -/
def qmbC2 : QMBState :=
  { bus := mbEmpty, message_queue := Function.update (fun _ => []) 0 [msgC2] }

/-- A message of class 2 from sender 5. -/
def msgC3 : Message := { type := 2, sender := 5, payload := 0 }

/-- A `QueuingMessageBus` with `msgC3` pending and no subscribers. -/
def qmbC3 : QMBState :=
  { bus := mbEmpty, message_queue := Function.update (fun _ => []) 2 [msgC3] }

/-- A message of class 0 from sender 0. -/
def msgC5 : Message := { type := 0, sender := 0, payload := 0 }

/-- A `MessageBus` whose only subscription is callback 0, registered
globally for type 0. -/
def mbC5 : MBState :=
  { global_receivers := Function.update (fun _ => []) 0 [0], local_receivers := fun _ => [] }

/-- A callback environment in which callback 0 reacts to any message by
subscribing callback 1 globally for the message's type, and every other
callback leaves the bus alone. -/
def envC5 : Callback → MBState → Message → MBState :=
  fun cb s m => if cb = 0 then MessageBus.subscribe_globally m.type 1 s else s

/-- A `MessageBus` with callbacks 1 and 2 registered globally for type 0 and
callback 2 registered locally for (type 0, sender 3). -/
def mbC4 : MBState :=
  { global_receivers := Function.update (fun _ => []) 0 [1, 2]
    local_receivers := Function.update (fun _ => []) (0, 3) [2] }

/-- A message of class 0 from sender 3. -/
def msgC4 : Message := { type := 0, sender := 3, payload := 0 }

/-! Helper lemmas about folds and the live loop. -/

/-- Folding a step function that never changes the state is the identity. -/
theorem foldl_steps_fixed {σ α : Type} (f : σ → α → σ) (h : ∀ s a, f s a = s)
    (l : List α) (s : σ) : l.foldl f s = s := by
  induction l generalizing s with
  | nil => rfl
  | cons a l ih => rw [List.foldl_cons, h]; exact ih s

/-- An observation preserved by every step is preserved by the fold. -/
theorem foldl_view_fixed {σ α β : Type} (P : σ → β) (f : σ → α → σ)
    (h : ∀ s a, P (f s a) = P s) (l : List α) (s : σ) : P (l.foldl f s) = P s := by
  induction l generalizing s with
  | nil => rfl
  | cons a l ih => rw [List.foldl_cons, ih (f s a), h]

/-- When no step changes the iterated list, the live loop terminates (with
enough fuel), visits exactly the suffix of the list from the start index on,
and ends in the fold of the steps over that suffix. -/
theorem pyForLive_stable {σ : Type} (get : σ → List Callback) (step : Callback → σ → σ)
    (hstep : ∀ cb s, get (step cb s) = get s) :
    ∀ (fuel i : Nat) (s : σ), (get s).length < fuel + i → 0 < fuel →
      pyForLive get step fuel i s
        = some (((get s).drop i).foldl (fun st cb => step cb st) s, (get s).drop i) := by
  intro fuel
  induction fuel with
  | zero => intro i s _ h2; exact absurd h2 (by omega)
  | succ fuel ih =>
    intro i s h1 _
    rw [pyForLive]
    by_cases h : i < (get s).length
    · rw [dif_pos h]
      have hrec := ih (i + 1) (step ((get s).get ⟨i, h⟩) s)
        (by rw [hstep]; omega) (by omega)
      simp only [hstep] at hrec
      rw [hrec, List.drop_eq_getElem_cons h, List.foldl_cons]
      simp only [List.get_eq_getElem]
    · rw [dif_neg h]
      have hle : (get s).length ≤ i := Nat.le_of_not_lt h
      rw [List.drop_eq_nil_of_le hle, List.foldl_nil]

/-- Live dispatch agrees with the snapshot reference whenever no invoked
callback changes the two matching receiver lists (it may freely change any
other registry entry). -/
theorem broadcastLive_stable (env : Callback → MBState → Message → MBState) (fuel : Nat)
    (s : MBState) (m : Message)
    (hg : ∀ cb st, (env cb st m).global_receivers m.type = st.global_receivers m.type)
    (hl : ∀ cb st,
      (env cb st m).local_receivers (m.type, m.sender) = st.local_receivers (m.type, m.sender))
    (hfg : (s.global_receivers m.type).length < fuel)
    (hfl : (s.local_receivers (m.type, m.sender)).length < fuel) :
    MessageBus.broadcastLive env fuel s m = some (snapshotDispatch env s m) := by
  have hpos : 0 < fuel := by omega
  have h1 := pyForLive_stable (fun st => st.global_receivers m.type)
    (fun cb st => env cb st m) (fun cb st => hg cb st) fuel 0 s (by simpa using hfg) hpos
  simp only [List.drop_zero] at h1
  have hloc : ((s.global_receivers m.type).foldl (fun st cb => env cb st m)
      s).local_receivers (m.type, m.sender) = s.local_receivers (m.type, m.sender) :=
    foldl_view_fixed (fun st => st.local_receivers (m.type, m.sender))
      (fun st cb => env cb st m) (fun st cb => hl cb st) _ s
  have h2 := pyForLive_stable (fun st => st.local_receivers (m.type, m.sender))
    (fun cb st => env cb st m) (fun cb st => hl cb st) fuel 0
    ((s.global_receivers m.type).foldl (fun st cb => env cb st m) s)
    (by simpa [hloc] using hfl) hpos
  simp only [List.drop_zero, hloc] at h2
  simp only [MessageBus.broadcastLive, h1, h2, snapshotDispatch, List.map_append]

/-- For inert callbacks the snapshot dispatch leaves the state unchanged and
produces the global-then-local trace. -/
theorem snapshotDispatch_inert (s : MBState) (m : Message) :
    snapshotDispatch inertEnv s m = (s, dispatchTrace s m) := by
  simp only [snapshotDispatch, inertEnv, dispatchTrace, List.map_append]
  rw [foldl_steps_fixed _ (fun _ _ => rfl), foldl_steps_fixed _ (fun _ _ => rfl)]

/-- Bridge: the live dispatch loop of `MessageBus.broadcast`, run with
callbacks that do not mutate the bus, terminates, leaves the state
unchanged, and produces exactly `dispatchTrace`. -/
theorem broadcastLive_inert (fuel : Nat) (s : MBState) (m : Message)
    (hfg : (s.global_receivers m.type).length < fuel)
    (hfl : (s.local_receivers (m.type, m.sender)).length < fuel) :
    MessageBus.broadcastLive inertEnv fuel s m = some (s, dispatchTrace s m) := by
  rw [broadcastLive_stable inertEnv fuel s m (fun _ _ => rfl) (fun _ _ => rfl) hfg hfl,
    snapshotDispatch_inert]

/-- Live dispatch of `SimpleMessageBus.broadcast` agrees with the snapshot
reference whenever no invoked callback changes the matching callback
list. -/
theorem smbBroadcastLive_stable (env : Callback → SMBState → Nat → SMBState) (fuel : Nat)
    (s : SMBState) (t : Nat) (payload : Nat)
    (hcb : ∀ cb st, (env cb st payload).callbacks t = st.callbacks t)
    (hf : (s.callbacks t).length < fuel) :
    SimpleMessageBus.broadcastLive env fuel s t payload
      = some (smbSnapshotDispatch env s t payload) := by
  have hpos : 0 < fuel := by omega
  have h1 := pyForLive_stable (fun st => st.callbacks t)
    (fun cb st => env cb st payload) (fun cb st => hcb cb st) fuel 0 s (by simpa using hf) hpos
  simp only [List.drop_zero] at h1
  by_cases ht : t ∈ s.message_types
  · simp only [SimpleMessageBus.broadcastLive, smbSnapshotDispatch, ht, not_true,
      if_neg, h1, if_false]
  · simp only [SimpleMessageBus.broadcastLive, smbSnapshotDispatch, ht, not_false_iff,
      if_true]

/-! Counting helpers for dispatch traces. -/

/-- Counting a pair in a map that tags every callback with a fixed message
counts the callback. -/
theorem count_map_pair (l : List Callback) (cb : Callback) (m : Message) :
    ((l.map fun c => (c, m)).count (cb, m)) = l.count cb := by
  induction l with
  | nil => rfl
  | cons a l ih =>
    simp [List.count_cons, ih, Prod.ext_iff]

/-- A pair tagged with a different message is never counted. -/
theorem count_map_pair_ne (l : List Callback) (cb : Callback) (m m2 : Message)
    (h : m2 ≠ m) : ((l.map fun c => (c, m2)).count (cb, m)) = 0 := by
  rw [List.count_eq_zero]
  intro hmem
  rw [List.mem_map] at hmem
  obtain ⟨c, _, heq⟩ := hmem
  exact h (congrArg Prod.snd heq)

/-! Lemmas about `QueuingMessageBus.broadcast` and the replay loop. -/

/-- `QueuingMessageBus.broadcast` never touches the receiver registries. -/
theorem qmb_broadcast_bus (s : QMBState) (m : Message) :
    (QueuingMessageBus.broadcast s m).1.bus = s.bus := by
  simp only [QueuingMessageBus.broadcast]
  split <;> rfl

/-- While the global receiver list of `t` is non-empty,
`QueuingMessageBus.broadcast` never appends to the queue of `t` (a message
of class `t` is dispatched, any other class is queued elsewhere). -/
theorem qmb_broadcast_queue_at (t : MessageType) (s : QMBState) (m : Message)
    (hg : s.bus.global_receivers t ≠ []) :
    (QueuingMessageBus.broadcast s m).1.message_queue t = s.message_queue t := by
  simp only [QueuingMessageBus.broadcast]
  split
  case isTrue h =>
    have hmt : t ≠ m.type := by
      intro he
      exact hg (by rw [he]; exact List.length_eq_zero.mp h.1)
    exact Function.update_noteq hmt _ _
  case isFalse h => rfl

/-- Clearing the queue of `t` commutes with a broadcast, as long as the
global receiver list of `t` is non-empty (so the broadcast cannot queue
into `t`). -/
theorem broadcast_clear_comm (t : MessageType) (s : QMBState) (m : Message)
    (hg : s.bus.global_receivers t ≠ []) :
    QueuingMessageBus.broadcast (QueuingMessageBus.clear t s) m
      = (QueuingMessageBus.clear t (QueuingMessageBus.broadcast s m).1,
          (QueuingMessageBus.broadcast s m).2) := by
  by_cases hc : (s.bus.global_receivers m.type).length = 0
      ∧ (s.bus.local_receivers (m.type, m.sender)).length = 0
  case pos =>
    have hmt : m.type ≠ t := by
      intro he
      exact hg (by rw [← he]; exact List.length_eq_zero.mp hc.1)
    simp only [QueuingMessageBus.broadcast, QueuingMessageBus.clear, if_pos hc]
    congr 2
    rw [Function.update_noteq hmt, Function.update_comm (Ne.symm hmt)]
  case neg =>
    simp only [QueuingMessageBus.broadcast, QueuingMessageBus.clear, if_neg hc]

/-- The `while`/`popleft` replay loop of `subscribe_globally` computes the
snapshot-then-clear reference: drain the whole pending list first, then
dispatch it in FIFO order.  The hypothesis that the global receiver list of
`t` is non-empty holds after the subscription that precedes the loop. -/
theorem drainFuel_eq_ref (t : MessageType) :
    ∀ (pending : List Message) (fuel : Nat) (s : QMBState),
      s.message_queue t = pending → s.bus.global_receivers t ≠ [] →
      pending.length ≤ fuel →
      drainFuel t fuel s = some (broadcastList (QueuingMessageBus.clear t s) pending) := by
  intro pending
  induction pending with
  | nil =>
    intro fuel s hq _ _
    have hcl : QueuingMessageBus.clear t s = s := by
      show QMBState.mk s.bus (Function.update s.message_queue t []) = s
      rw [← hq, Function.update_eq_self]
    rw [hcl]
    cases fuel with
    | zero => simp only [drainFuel, if_pos hq, broadcastList]
    | succ fuel =>
      rw [drainFuel, hq]
      simp only [broadcastList]
  | cons m rest ih =>
    intro fuel s hq hg hf
    cases fuel with
    | zero => exact absurd hf (by simp)
    | succ fuel =>
      have hf2 : rest.length ≤ fuel := by
        simp only [List.length_cons] at hf
        omega
      have hq1 : ({ s with message_queue := Function.update s.message_queue t rest }
          : QMBState).message_queue t = rest := Function.update_same t rest s.message_queue
      have hg1 : ({ s with message_queue := Function.update s.message_queue t rest }
          : QMBState).bus.global_receivers t ≠ [] := hg
      have hqp : (QueuingMessageBus.broadcast
          { s with message_queue := Function.update s.message_queue t rest } m).1.message_queue t
          = rest := by
        rw [qmb_broadcast_queue_at t _ m hg1, hq1]
      have hgp : (QueuingMessageBus.broadcast
          { s with message_queue := Function.update s.message_queue t rest } m).1.bus.global_receivers t
          ≠ [] := by
        rw [qmb_broadcast_bus]
        exact hg
      have hrec := ih fuel (QueuingMessageBus.broadcast
        { s with message_queue := Function.update s.message_queue t rest } m).1 hqp hgp hf2
      have hcc := broadcast_clear_comm t
        { s with message_queue := Function.update s.message_queue t rest } m hg1
      have hclear : QueuingMessageBus.clear t
          ({ s with message_queue := Function.update s.message_queue t rest } : QMBState)
          = QueuingMessageBus.clear t s := by
        simp only [QueuingMessageBus.clear]
        congr 1
        rw [Function.update_idem]
      rw [hclear] at hcc
      rw [drainFuel, hq]
      simp only [hrec, broadcastList, hcc]

/-- `QueuingMessageBus.subscribe_globally` computes the snapshot-then-clear
reference algorithm whenever the fuel covers the backlog. -/
theorem subscribe_globally_eq_ref (fuel : Nat) (t : MessageType) (cb : Callback) (s : QMBState)
    (hf : (s.message_queue t).length ≤ fuel) :
    QueuingMessageBus.subscribe_globally fuel t cb s = some (refSubscribeGlobally t cb s) := by
  have hg : ({ s with bus := MessageBus.subscribe_globally t cb s.bus }
      : QMBState).bus.global_receivers t ≠ [] := by
    show (Function.update s.bus.global_receivers t (s.bus.global_receivers t ++ [cb])) t ≠ []
    rw [Function.update_same]
    simp
  exact drainFuel_eq_ref t _ fuel _ rfl hg hf

/-- Dispatching a list of messages never touches the receiver registries. -/
theorem broadcastList_bus (l : List Message) :
    ∀ s : QMBState, (broadcastList s l).1.bus = s.bus := by
  induction l with
  | nil => intro s; rfl
  | cons m rest ih =>
    intro s
    simp only [broadcastList]
    rw [ih, qmb_broadcast_bus]

/-- While the global receiver list of `t` is non-empty, dispatching any list
of messages from a state with an empty queue for `t` keeps that queue
empty. -/
theorem broadcastList_queue_empty (t : MessageType) (l : List Message) :
    ∀ s : QMBState, s.bus.global_receivers t ≠ [] → s.message_queue t = [] →
      (broadcastList s l).1.message_queue t = [] := by
  induction l with
  | nil => intro s _ h0; exact h0
  | cons m rest ih =>
    intro s hg h0
    simp only [broadcastList]
    refine ih _ ?_ ?_
    · rw [qmb_broadcast_bus]; exact hg
    · rw [qmb_broadcast_queue_at t s m hg]; exact h0

/-- When `cb` is the only global receiver of `m`'s class and there is no
local receiver for `m`'s (class, sender), dispatching a list of messages
delivers `m` to `cb` exactly as often as `m` occurs in the list. -/
theorem broadcastList_count (cb : Callback) (m : Message) (l : List Message) :
    ∀ s : QMBState, s.bus.global_receivers m.type = [cb] →
      s.bus.local_receivers (m.type, m.sender) = [] →
      ((broadcastList s l).2).count (cb, m) = l.count m := by
  induction l with
  | nil => intro s _ _; rfl
  | cons m2 rest ih =>
    intro s hg hl
    have hrest := ih (QueuingMessageBus.broadcast s m2).1
      (by rw [qmb_broadcast_bus]; exact hg) (by rw [qmb_broadcast_bus]; exact hl)
    simp only [broadcastList, List.count_append, hrest, List.count_cons]
    by_cases hm : m2 = m
    · subst hm
      have hcond : ¬ ((s.bus.global_receivers m2.type).length = 0
          ∧ (s.bus.local_receivers (m2.type, m2.sender)).length = 0) := by
        rw [hg]
        simp
      simp only [QueuingMessageBus.broadcast, if_neg hcond, dispatchTrace, hg, hl]
      simp [List.count_cons]
      omega
    · have hz : ((QueuingMessageBus.broadcast s m2).2).count (cb, m) = 0 := by
        simp only [QueuingMessageBus.broadcast]
        split
        · rfl
        · simp only [dispatchTrace, List.count_append,
            count_map_pair_ne _ _ _ _ hm]
      rw [hz]
      simp [hm]

/-- The replay loop of `subscribe_locally` does nothing: its filter is
identically false. -/
theorem localReplayLoop_noop (t : MessageType) (inst : Nat) (l : List Message) :
    ∀ s : QMBState, QueuingMessageBus.localReplayLoop t inst l s = (s, []) := by
  induction l with
  | nil => intro s; rfl
  | cons m rest ih =>
    intro s
    simp only [QueuingMessageBus.localReplayLoop, localReplayCond, messageEqualsClass,
      Bool.false_and, Bool.false_eq_true, if_false]
    exact ih s

/-- `QueuingMessageBus.subscribe_locally` registers the callback and then
replays nothing: the queue, and every other component, is untouched. -/
theorem subscribe_locally_noop (t : MessageType) (inst : Nat) (cb : Callback) (s : QMBState) :
    QueuingMessageBus.subscribe_locally t inst cb s
      = ({ s with bus := MessageBus.subscribe_locally t inst cb s.bus }, []) := by
  simp only [QueuingMessageBus.subscribe_locally]
  exact localReplayLoop_noop t inst _ _

/-! Claim theorems. -/

/-- C1: a message broadcast on the `QueuingMessageBus` while both the global
registry for its type and the local registry for (type, sender) are empty is
appended to the pending queue of its type (`queue_len` grows by one), and a
subsequent `subscribe_globally` for that type delivers it to the new
callback exactly once and leaves `queue_len` at 0. -/
theorem claim_queue_then_subscribe_delivers_once (s : QMBState) (m : Message) (cb : Callback)
    (fuel : Nat)
    (hg : s.bus.global_receivers m.type = [])
    (hl : s.bus.local_receivers (m.type, m.sender) = [])
    (hm : m ∉ s.message_queue m.type)
    (hf : (s.message_queue m.type).length + 1 ≤ fuel) :
    (QueuingMessageBus.broadcast s m).1.message_queue m.type = s.message_queue m.type ++ [m]
    ∧ QueuingMessageBus.queue_len m.type (QueuingMessageBus.broadcast s m).1
        = QueuingMessageBus.queue_len m.type s + 1
    ∧ ∃ s2 tr, QueuingMessageBus.subscribe_globally fuel m.type cb
          (QueuingMessageBus.broadcast s m).1 = some (s2, tr)
        ∧ tr.count (cb, m) = 1
        ∧ QueuingMessageBus.queue_len m.type s2 = 0 := by
  have hcond : (s.bus.global_receivers m.type).length = 0
      ∧ (s.bus.local_receivers (m.type, m.sender)).length = 0 := by
    rw [hg, hl]
    exact ⟨rfl, rfl⟩
  have hb : QueuingMessageBus.broadcast s m
      = ({ s with message_queue :=
          Function.update s.message_queue m.type (s.message_queue m.type ++ [m]) }, []) := by
    simp only [QueuingMessageBus.broadcast, if_pos hcond]
  have hq1 : (QueuingMessageBus.broadcast s m).1.message_queue m.type
      = s.message_queue m.type ++ [m] := by
    rw [hb]
    exact Function.update_same _ _ _
  refine ⟨hq1, ?_, ?_⟩
  · simp only [QueuingMessageBus.queue_len, hq1, List.length_append, List.length_singleton]
  · have hflen : ((QueuingMessageBus.broadcast s m).1.message_queue m.type).length ≤ fuel := by
      rw [hq1]
      simp only [List.length_append, List.length_singleton]
      omega
    have href := subscribe_globally_eq_ref fuel m.type cb (QueuingMessageBus.broadcast s m).1 hflen
    refine ⟨(refSubscribeGlobally m.type cb (QueuingMessageBus.broadcast s m).1).1,
      (refSubscribeGlobally m.type cb (QueuingMessageBus.broadcast s m).1).2, href, ?_, ?_⟩
    · show ((broadcastList
          (QueuingMessageBus.clear m.type
            { (QueuingMessageBus.broadcast s m).1 with
              bus := MessageBus.subscribe_globally m.type cb (QueuingMessageBus.broadcast s m).1.bus })
          (((QueuingMessageBus.broadcast s m).1).message_queue m.type)).2).count (cb, m) = 1
      rw [broadcastList_count cb m _ _ ?_ ?_]
      · rw [hq1, List.count_append, List.count_eq_zero_of_not_mem hm, List.count_singleton_self]
      · show (Function.update (QueuingMessageBus.broadcast s m).1.bus.global_receivers m.type
            ((QueuingMessageBus.broadcast s m).1.bus.global_receivers m.type ++ [cb])) m.type = [cb]
        rw [Function.update_same, qmb_broadcast_bus, hg]
        rfl
      · show (QueuingMessageBus.broadcast s m).1.bus.local_receivers (m.type, m.sender) = []
        rw [qmb_broadcast_bus, hl]
    · show QueuingMessageBus.queue_len m.type (broadcastList
          (QueuingMessageBus.clear m.type
            { (QueuingMessageBus.broadcast s m).1 with
              bus := MessageBus.subscribe_globally m.type cb (QueuingMessageBus.broadcast s m).1.bus })
          (((QueuingMessageBus.broadcast s m).1).message_queue m.type)).1 = 0
      rw [QueuingMessageBus.queue_len, broadcastList_queue_empty m.type _ _ ?_ ?_]
      · rfl
      · show (Function.update (QueuingMessageBus.broadcast s m).1.bus.global_receivers m.type
            ((QueuingMessageBus.broadcast s m).1.bus.global_receivers m.type ++ [cb])) m.type ≠ []
        rw [Function.update_same, qmb_broadcast_bus, hg]
        simp
      · exact Function.update_same _ _ _

/-- Witness for C1: scenario A on the empty bus with message ⟨0, 1, 2⟩,
callback 3 and fuel 1. -/
theorem claim_queue_then_subscribe_delivers_once_witness :
    (QueuingMessageBus.broadcast qmbEmpty ⟨0, 1, 2⟩).1.message_queue 0
        = qmbEmpty.message_queue 0 ++ [⟨0, 1, 2⟩]
    ∧ QueuingMessageBus.queue_len 0 (QueuingMessageBus.broadcast qmbEmpty ⟨0, 1, 2⟩).1
        = QueuingMessageBus.queue_len 0 qmbEmpty + 1
    ∧ ∃ s2 tr, QueuingMessageBus.subscribe_globally 1 0 3
          (QueuingMessageBus.broadcast qmbEmpty ⟨0, 1, 2⟩).1 = some (s2, tr)
        ∧ tr.count (3, ⟨0, 1, 2⟩) = 1
        ∧ QueuingMessageBus.queue_len 0 s2 = 0 :=
  claim_queue_then_subscribe_delivers_once qmbEmpty ⟨0, 1, 2⟩ 3 1 rfl rfl
    (by decide) (by decide)

/-- C2 (evaluation of the code at the failing input): `qmbC2` holds the
pending message `msgC2` with sender 4 for type 0; `subscribe_locally(0, 4, 9)`
— whose instance equals the queued message's sender — replays nothing: the
message stays queued and no callback is invoked, because the replay filter
compares the message object with the message class and is therefore always
false. -/
theorem claim_subscribe_locally_replays_nothing :
    (QueuingMessageBus.subscribe_locally 0 4 9 qmbC2).1.message_queue 0 = [msgC2]
    ∧ (QueuingMessageBus.subscribe_locally 0 4 9 qmbC2).2 = []
    ∧ QueuingMessageBus.queue_len 0 (QueuingMessageBus.subscribe_locally 0 4 9 qmbC2).1 = 1 :=
  ⟨rfl, rfl, rfl⟩

/-- C3 counterexample: on `qmbC3` (one pending message of type 2 whose
sender 5 matches the newly subscribed instance), the replay performed by
`subscribe_locally` dispatches nothing and leaves the queue untouched,
whereas the snapshot-then-clear reference algorithm drains the matching
entry and dispatches it to the new callback — so the code's replay is not
equivalent to the reference. -/
theorem claim_replay_snapshot_clear_counterexample :
    (QueuingMessageBus.subscribe_locally 2 5 7 qmbC3).2 = []
    ∧ (QueuingMessageBus.subscribe_locally 2 5 7 qmbC3).1.message_queue 2 = [msgC3]
    ∧ (refSubscribeLocally 2 5 7 qmbC3).2 = [(7, msgC3)]
    ∧ (refSubscribeLocally 2 5 7 qmbC3).1.message_queue 2 = [] :=
  ⟨rfl, rfl, rfl, rfl⟩

/-- C3 (amended): the replay of `subscribe_globally` is equivalent to the
snapshot-then-clear reference — the queue is drained before any dispatch,
with the same trace and final state; the replay of `subscribe_locally`
performs no replay at all (its filter never matches), so it never mutates
the queue during its iteration, but it is not equivalent to the reference
that drains the sender-matching entries. -/
theorem claim_replay_snapshot_clear_amended (fuel : Nat) (t : MessageType) (cb : Callback)
    (s : QMBState) (t2 : MessageType) (inst2 cb2 : Nat) (s2 : QMBState)
    (hf : (s.message_queue t).length ≤ fuel) :
    QueuingMessageBus.subscribe_globally fuel t cb s = some (refSubscribeGlobally t cb s)
    ∧ QueuingMessageBus.subscribe_locally t2 inst2 cb2 s2
        = ({ s2 with bus := MessageBus.subscribe_locally t2 inst2 cb2 s2.bus }, []) :=
  ⟨subscribe_globally_eq_ref fuel t cb s hf, subscribe_locally_noop t2 inst2 cb2 s2⟩

/-- Witness for the amended C3, on `qmbC2` (backlog of length 1, fuel 1) and
`qmbEmpty`. -/
theorem claim_replay_snapshot_clear_amended_witness :
    QueuingMessageBus.subscribe_globally 1 0 3 qmbC2 = some (refSubscribeGlobally 0 3 qmbC2)
    ∧ QueuingMessageBus.subscribe_locally 0 4 9 qmbEmpty
        = ({ qmbEmpty with bus := MessageBus.subscribe_locally 0 4 9 qmbEmpty.bus }, []) :=
  claim_replay_snapshot_clear_amended 1 0 3 qmbC2 0 4 9 qmbEmpty (by decide)

/-- C4: for callbacks that do not mutate the bus, `MessageBus.broadcast`
first invokes every globally registered callback for the message's type in
registration order, then every locally registered callback for (type,
sender) in registration order; there is no deduplication between the two
passes — the delivery count of `(cb, m)` is the sum of `cb`'s occurrence
counts in the two lists — and a callback absent from both matching lists is
never invoked with `m`, so a local registration under a different sender
never contributes. -/
theorem claim_broadcast_global_then_local (env : Callback → MBState → Message → MBState)
    (fuel : Nat) (s : MBState) (m : Message) (cb : Callback)
    (henv : ∀ c st m2, env c st m2 = st)
    (hfg : (s.global_receivers m.type).length < fuel)
    (hfl : (s.local_receivers (m.type, m.sender)).length < fuel) :
    MessageBus.broadcastLive env fuel s m = some (s, dispatchTrace s m)
    ∧ (dispatchTrace s m).count (cb, m)
        = (s.global_receivers m.type).count cb + (s.local_receivers (m.type, m.sender)).count cb
    ∧ (cb ∉ s.global_receivers m.type → cb ∉ s.local_receivers (m.type, m.sender) →
        (cb, m) ∉ dispatchTrace s m) := by
  have henv2 : env = inertEnv := by
    funext c st m2
    exact henv c st m2
  subst henv2
  refine ⟨broadcastLive_inert fuel s m hfg hfl, ?_, ?_⟩
  · simp only [dispatchTrace, List.count_append, count_map_pair]
  · intro hg2 hl2
    simp only [dispatchTrace, List.mem_append, List.mem_map]
    rintro (⟨c, hc, he⟩ | ⟨c, hc, he⟩)
    · rw [Prod.mk.injEq] at he
      exact hg2 (he.1 ▸ hc)
    · rw [Prod.mk.injEq] at he
      exact hl2 (he.1 ▸ hc)

/-- Witness for C4 on `mbC4` / `msgC4`: callback 2 is registered both
globally and locally and is delivered twice; callback 9 is registered
nowhere and is never delivered. -/
theorem claim_broadcast_global_then_local_witness :
    MessageBus.broadcastLive inertEnv 5 mbC4 msgC4 = some (mbC4, dispatchTrace mbC4 msgC4)
    ∧ (dispatchTrace mbC4 msgC4).count (2, msgC4) = 2
    ∧ (9, msgC4) ∉ dispatchTrace mbC4 msgC4 := by
  have h2 := claim_broadcast_global_then_local inertEnv 5 mbC4 msgC4 2
    (fun _ _ _ => rfl) (by decide) (by decide)
  have h9 := claim_broadcast_global_then_local inertEnv 5 mbC4 msgC4 9
    (fun _ _ _ => rfl) (by decide) (by decide)
  refine ⟨h2.1, ?_, h9.2.2 (by decide) (by decide)⟩
  rw [h2.2.1]
  decide

/-- C5 counterexample: the dispatch loop iterates the live list, not a
snapshot.  On `mbC5` (only callback 0 registered for type 0), callback 0
subscribes callback 1 globally for the type during its own invocation
(environment `envC5`); the live loop then also invokes callback 1, whereas
the snapshot reference invokes callback 0 alone — so the in-progress
dispatch does change. -/
theorem claim_dispatch_snapshot_counterexample :
    (MessageBus.broadcastLive envC5 4 mbC5 msgC5).map (fun r => r.2)
        = some [(0, msgC5), (1, msgC5)]
    ∧ (snapshotDispatch envC5 mbC5 msgC5).2 = [(0, msgC5)] :=
  ⟨rfl, rfl⟩

/-- C5 (amended): the dispatch loops of `MessageBus.broadcast` and
`SimpleMessageBus.broadcast` iterate the live callback list; whenever no
invoked callback modifies the matching callback lists (it may modify any
other registry entry), the dispatch agrees with the snapshot reference, so
it invokes exactly the callbacks present at the start, in order.  A
callback that appends to the matching list during its own invocation is,
however, itself reached by the in-progress dispatch (see the
counterexample). -/
theorem claim_dispatch_snapshot_amended (env : Callback → MBState → Message → MBState)
    (fuel : Nat) (s : MBState) (m : Message)
    (env2 : Callback → SMBState → Nat → SMBState) (fuel2 : Nat) (s2 : SMBState) (t p : Nat)
    (hg : ∀ cb st, (env cb st m).global_receivers m.type = st.global_receivers m.type)
    (hl : ∀ cb st, (env cb st m).local_receivers (m.type, m.sender)
        = st.local_receivers (m.type, m.sender))
    (hfg : (s.global_receivers m.type).length < fuel)
    (hfl : (s.local_receivers (m.type, m.sender)).length < fuel)
    (h2 : ∀ cb st, (env2 cb st p).callbacks t = st.callbacks t)
    (hf2 : (s2.callbacks t).length < fuel2) :
    MessageBus.broadcastLive env fuel s m = some (snapshotDispatch env s m)
    ∧ SimpleMessageBus.broadcastLive env2 fuel2 s2 t p
        = some (smbSnapshotDispatch env2 s2 t p) :=
  ⟨broadcastLive_stable env fuel s m hg hl hfg hfl,
    smbBroadcastLive_stable env2 fuel2 s2 t p h2 hf2⟩

/-- Witness for the amended C5, with inert callbacks on `mbC5` / `msgC5` and
`smbEx`. -/
theorem claim_dispatch_snapshot_amended_witness :
    MessageBus.broadcastLive inertEnv 3 mbC5 msgC5 = some (snapshotDispatch inertEnv mbC5 msgC5)
    ∧ SimpleMessageBus.broadcastLive smbInertEnv 2 smbEx 0 7
        = some (smbSnapshotDispatch smbInertEnv smbEx 0 7) :=
  claim_dispatch_snapshot_amended inertEnv 3 mbC5 msgC5 smbInertEnv 2 smbEx 0 7
    (fun _ _ => rfl) (fun _ _ => rfl) (by decide) (by decide) (fun _ _ => rfl) (by decide)

/-- C6: `unsubscribe_globally`, `unsubscribe_locally` and
`SimpleMessageBus.unsubscribe` fail (assert failure resp. `ValueError`,
modelled as `none`) exactly when the callback is not registered under the
given key; when it is registered, they succeed, decrease its occurrence
count under that key by one, and leave every other registry entry
unchanged. -/
theorem claim_unsubscribe_unregistered_errors (s : MBState) (t : MessageType) (inst : Nat)
    (cb : Callback) (sb : SMBState) :
    (cb ∉ s.global_receivers t → MessageBus.unsubscribe_globally t cb s = none)
    ∧ (cb ∈ s.global_receivers t → ∃ s2, MessageBus.unsubscribe_globally t cb s = some s2
        ∧ (s2.global_receivers t).count cb + 1 = (s.global_receivers t).count cb
        ∧ (∀ u, u ≠ t → s2.global_receivers u = s.global_receivers u)
        ∧ s2.local_receivers = s.local_receivers)
    ∧ (cb ∉ s.local_receivers (t, inst) → MessageBus.unsubscribe_locally t inst cb s = none)
    ∧ (cb ∈ s.local_receivers (t, inst) →
        ∃ s2, MessageBus.unsubscribe_locally t inst cb s = some s2
        ∧ (s2.local_receivers (t, inst)).count cb + 1 = (s.local_receivers (t, inst)).count cb
        ∧ (∀ k, k ≠ (t, inst) → s2.local_receivers k = s.local_receivers k)
        ∧ s2.global_receivers = s.global_receivers)
    ∧ (cb ∉ sb.callbacks t → SimpleMessageBus.unsubscribe t cb sb = none)
    ∧ (cb ∈ sb.callbacks t → ∃ s2, SimpleMessageBus.unsubscribe t cb sb = some s2
        ∧ (s2.callbacks t).count cb + 1 = (sb.callbacks t).count cb
        ∧ (∀ u, u ≠ t → s2.callbacks u = sb.callbacks u)
        ∧ s2.message_types = sb.message_types) := by
  refine ⟨?_, ?_, ?_, ?_, ?_, ?_⟩
  · intro h
    simp only [MessageBus.unsubscribe_globally, if_neg h]
  · intro h
    refine ⟨{ s with global_receivers :=
        Function.update s.global_receivers t ((s.global_receivers t).erase cb) },
      by simp only [MessageBus.unsubscribe_globally, if_pos h], ?_, ?_, rfl⟩
    · show ((Function.update s.global_receivers t ((s.global_receivers t).erase cb)) t).count cb
          + 1 = (s.global_receivers t).count cb
      rw [Function.update_same, List.count_erase_self]
      have := List.count_pos_iff.mpr h
      omega
    · intro u hu
      exact Function.update_noteq hu _ _
  · intro h
    simp only [MessageBus.unsubscribe_locally, if_neg h]
  · intro h
    refine ⟨{ s with local_receivers :=
        Function.update s.local_receivers (t, inst) ((s.local_receivers (t, inst)).erase cb) },
      by simp only [MessageBus.unsubscribe_locally, if_pos h], ?_, ?_, rfl⟩
    · show ((Function.update s.local_receivers (t, inst)
          ((s.local_receivers (t, inst)).erase cb)) (t, inst)).count cb + 1
          = (s.local_receivers (t, inst)).count cb
      rw [Function.update_same, List.count_erase_self]
      have := List.count_pos_iff.mpr h
      omega
    · intro k hk
      exact Function.update_noteq hk _ _
  · intro h
    simp only [SimpleMessageBus.unsubscribe, if_neg h]
  · intro h
    refine ⟨{ sb with callbacks :=
        Function.update sb.callbacks t ((sb.callbacks t).erase cb) },
      by simp only [SimpleMessageBus.unsubscribe, if_pos h], ?_, ?_, rfl⟩
    · show ((Function.update sb.callbacks t ((sb.callbacks t).erase cb)) t).count cb + 1
          = (sb.callbacks t).count cb
      rw [Function.update_same, List.count_erase_self]
      have := List.count_pos_iff.mpr h
      omega
    · intro u hu
      exact Function.update_noteq hu _ _

/-- Witness for C6 on `mbC4` and `smbEx`: callback 9 is registered nowhere
(all three unsubscriptions fail), callbacks 2 resp. 5 are registered (all
three unsubscriptions succeed and remove one occurrence). -/
theorem claim_unsubscribe_unregistered_errors_witness :
    MessageBus.unsubscribe_globally 0 9 mbC4 = none
    ∧ MessageBus.unsubscribe_locally 0 3 9 mbC4 = none
    ∧ SimpleMessageBus.unsubscribe 0 9 smbEx = none
    ∧ (∃ s2, MessageBus.unsubscribe_globally 0 2 mbC4 = some s2
        ∧ (s2.global_receivers 0).count 2 + 1 = (mbC4.global_receivers 0).count 2
        ∧ (∀ u, u ≠ 0 → s2.global_receivers u = mbC4.global_receivers u)
        ∧ s2.local_receivers = mbC4.local_receivers)
    ∧ (∃ s2, MessageBus.unsubscribe_locally 0 3 2 mbC4 = some s2
        ∧ (s2.local_receivers (0, 3)).count 2 + 1 = (mbC4.local_receivers (0, 3)).count 2
        ∧ (∀ k, k ≠ ((0 : MessageType), (3 : Nat)) →
            s2.local_receivers k = mbC4.local_receivers k)
        ∧ s2.global_receivers = mbC4.global_receivers)
    ∧ (∃ s2, SimpleMessageBus.unsubscribe 0 5 smbEx = some s2
        ∧ (s2.callbacks 0).count 5 + 1 = (smbEx.callbacks 0).count 5
        ∧ (∀ u, u ≠ 0 → s2.callbacks u = smbEx.callbacks u)
        ∧ s2.message_types = smbEx.message_types) := by
  have hA := claim_unsubscribe_unregistered_errors mbC4 0 3 9 smbEx
  have hB := claim_unsubscribe_unregistered_errors mbC4 0 3 2 smbEx
  have hC := claim_unsubscribe_unregistered_errors mbC4 0 3 5 smbEx
  exact ⟨hA.1 (by decide), hA.2.2.1 (by decide), hA.2.2.2.2.1 (by decide),
    hB.2.1 (by decide), hB.2.2.2.1 (by decide), hC.2.2.2.2.2 (by decide)⟩

/-- C7: the three `discard` operations are idempotent removals: on an
unregistered callback they change nothing and never fail; on a registered
callback they remove one occurrence. -/
theorem claim_discard_idempotent (s : MBState) (t : MessageType) (inst : Nat) (cb : Callback)
    (sb : SMBState) :
    (cb ∉ s.global_receivers t → MessageBus.discard_globally t cb s = s)
    ∧ (cb ∈ s.global_receivers t →
        ((MessageBus.discard_globally t cb s).global_receivers t).count cb + 1
          = (s.global_receivers t).count cb)
    ∧ (cb ∉ s.local_receivers (t, inst) → MessageBus.discard_locally t inst cb s = s)
    ∧ (cb ∈ s.local_receivers (t, inst) →
        ((MessageBus.discard_locally t inst cb s).local_receivers (t, inst)).count cb + 1
          = (s.local_receivers (t, inst)).count cb)
    ∧ (cb ∉ sb.callbacks t → SimpleMessageBus.discard t cb sb = sb)
    ∧ (cb ∈ sb.callbacks t →
        ((SimpleMessageBus.discard t cb sb).callbacks t).count cb + 1
          = (sb.callbacks t).count cb) := by
  refine ⟨?_, ?_, ?_, ?_, ?_, ?_⟩
  · intro h
    simp only [MessageBus.discard_globally, if_neg h]
  · intro h
    simp only [MessageBus.discard_globally, if_pos h, MessageBus.unsubscribe_globally,
      Option.getD_some]
    rw [Function.update_same, List.count_erase_self]
    have := List.count_pos_iff.mpr h
    omega
  · intro h
    simp only [MessageBus.discard_locally, if_neg h]
  · intro h
    simp only [MessageBus.discard_locally, if_pos h, MessageBus.unsubscribe_locally,
      Option.getD_some]
    rw [Function.update_same, List.count_erase_self]
    have := List.count_pos_iff.mpr h
    omega
  · intro h
    simp only [SimpleMessageBus.discard, if_neg h]
  · intro h
    simp only [SimpleMessageBus.discard, if_pos h, SimpleMessageBus.unsubscribe,
      Option.getD_some]
    rw [Function.update_same, List.count_erase_self]
    have := List.count_pos_iff.mpr h
    omega

/-- Witness for C7 on `mbC4` and `smbEx`: callback 9 is registered nowhere
(all three discards are silent no-ops), callbacks 2 resp. 5 are registered
(all three discards remove one occurrence). -/
theorem claim_discard_idempotent_witness :
    MessageBus.discard_globally 0 9 mbC4 = mbC4
    ∧ MessageBus.discard_locally 0 3 9 mbC4 = mbC4
    ∧ SimpleMessageBus.discard 0 9 smbEx = smbEx
    ∧ ((MessageBus.discard_globally 0 2 mbC4).global_receivers 0).count 2 + 1
        = (mbC4.global_receivers 0).count 2
    ∧ ((MessageBus.discard_locally 0 3 2 mbC4).local_receivers (0, 3)).count 2 + 1
        = (mbC4.local_receivers (0, 3)).count 2
    ∧ ((SimpleMessageBus.discard 0 5 smbEx).callbacks 0).count 5 + 1
        = (smbEx.callbacks 0).count 5 := by
  have hA := claim_discard_idempotent mbC4 0 3 9 smbEx
  have hB := claim_discard_idempotent mbC4 0 3 2 smbEx
  have hC := claim_discard_idempotent mbC4 0 3 5 smbEx
  exact ⟨hA.1 (by decide), hA.2.2.1 (by decide), hA.2.2.2.2.1 (by decide),
    hB.2.1 (by decide), hB.2.2.2.1 (by decide), hC.2.2.2.2.2 (by decide)⟩

/-- C8: `SimpleMessageBus.subscribe` fails with the unsupported-type error
whenever the type is not in the recognized set fixed at construction, fails
with the duplicate-subscription error whenever the callback is already
registered for the type, and otherwise appends the callback; both failures
occur before any mutation, and the success changes only the one list. -/
theorem claim_typed_subscribe_policy (sb : SMBState) (t : Nat) (cb : Callback) :
    (t ∉ sb.message_types →
        SimpleMessageBus.subscribe t cb sb = Except.error SubscribeError.unsupportedType)
    ∧ (t ∈ sb.message_types → cb ∈ sb.callbacks t →
        SimpleMessageBus.subscribe t cb sb = Except.error SubscribeError.duplicateSubscription)
    ∧ (t ∈ sb.message_types → cb ∉ sb.callbacks t →
        ∃ s2, SimpleMessageBus.subscribe t cb sb = Except.ok s2
        ∧ s2.callbacks t = sb.callbacks t ++ [cb]
        ∧ (∀ u, u ≠ t → s2.callbacks u = sb.callbacks u)
        ∧ s2.message_types = sb.message_types) := by
  refine ⟨?_, ?_, ?_⟩
  · intro h
    simp only [SimpleMessageBus.subscribe, if_pos h]
  · intro h1 h2
    simp only [SimpleMessageBus.subscribe, if_neg (not_not_intro h1), if_pos h2]
  · intro h1 h2
    refine ⟨{ sb with callbacks := Function.update sb.callbacks t (sb.callbacks t ++ [cb]) },
      by simp only [SimpleMessageBus.subscribe, if_neg (not_not_intro h1), if_neg h2],
      ?_, ?_, rfl⟩
    · exact Function.update_same _ _ _
    · intro u hu
      exact Function.update_noteq hu _ _

/-- Witness for C8 on `smbEx` (types 0 and 1, callback 5 subscribed to 0):
type 9 is unsupported, subscribing 5 to 0 again is a duplicate, subscribing
5 to 1 succeeds. -/
theorem claim_typed_subscribe_policy_witness :
    SimpleMessageBus.subscribe 9 5 smbEx = Except.error SubscribeError.unsupportedType
    ∧ SimpleMessageBus.subscribe 0 5 smbEx = Except.error SubscribeError.duplicateSubscription
    ∧ (∃ s2, SimpleMessageBus.subscribe 1 5 smbEx = Except.ok s2
        ∧ s2.callbacks 1 = smbEx.callbacks 1 ++ [5]
        ∧ (∀ u, u ≠ 1 → s2.callbacks u = smbEx.callbacks u)
        ∧ s2.message_types = smbEx.message_types) :=
  ⟨(claim_typed_subscribe_policy smbEx 9 5).1 (by decide),
    (claim_typed_subscribe_policy smbEx 0 5).2.1 (by decide) (by decide),
    (claim_typed_subscribe_policy smbEx 1 5).2.2 (by decide) (by decide)⟩

/-- C9: `SimpleMessageBus.broadcast` on an unrecognized type raises no
error, invokes no callback, and leaves the bus unchanged; on a recognized
type (with non-mutating callbacks) it invokes every registered callback in
subscription order, passing the supplied payload. -/
theorem claim_typed_broadcast_unknown_silent (env2 : Callback → SMBState → Nat → SMBState)
    (fuel : Nat) (sb : SMBState) (t p : Nat)
    (henv : ∀ c st q, env2 c st q = st)
    (hf : (sb.callbacks t).length < fuel) :
    (t ∉ sb.message_types → SimpleMessageBus.broadcastLive env2 fuel sb t p = some (sb, []))
    ∧ (t ∈ sb.message_types → SimpleMessageBus.broadcastLive env2 fuel sb t p
        = some (sb, (sb.callbacks t).map (fun cb => (cb, p)))) := by
  have henv2 : env2 = smbInertEnv := by
    funext c st q
    exact henv c st q
  subst henv2
  constructor
  · intro h
    simp only [SimpleMessageBus.broadcastLive, if_pos h]
  · intro h
    rw [smbBroadcastLive_stable smbInertEnv fuel sb t p (fun _ _ => rfl) hf]
    simp only [smbSnapshotDispatch, if_neg (not_not_intro h)]
    rw [foldl_steps_fixed (fun st cb => smbInertEnv cb st p) (fun _ _ => rfl)]

/-- Witness for C9 on `smbEx`: type 9 is unknown (silent no-op, nothing
invoked), type 0 delivers payload 42 to the registered callback 5. -/
theorem claim_typed_broadcast_unknown_silent_witness :
    SimpleMessageBus.broadcastLive smbInertEnv 3 smbEx 9 1 = some (smbEx, [])
    ∧ SimpleMessageBus.broadcastLive smbInertEnv 3 smbEx 0 42
        = some (smbEx, (smbEx.callbacks 0).map (fun cb => (cb, 42))) :=
  ⟨(claim_typed_broadcast_unknown_silent smbInertEnv 3 smbEx 9 1 (fun _ _ _ => rfl)
      (by decide)).1 (by decide),
    (claim_typed_broadcast_unknown_silent smbInertEnv 3 smbEx 0 42 (fun _ _ _ => rfl)
      (by decide)).2 (by decide)⟩

/-- C10: `subscribe_globally` performs no duplicate check, so a callback can
be registered twice for one type; `unsubscribe_globally` (and
`discard_globally`, which gives the same state) then removes only the first
occurrence, so the callback is still registered and a subsequent broadcast
of that type delivers the message to it exactly once — once per remaining
registration. -/
theorem claim_duplicate_registration_single_removal (s : MBState) (cb : Callback) (m : Message)
    (fuel : Nat)
    (hg : cb ∉ s.global_receivers m.type)
    (hl : cb ∉ s.local_receivers (m.type, m.sender))
    (hfg : (s.global_receivers m.type).length + 1 < fuel)
    (hfl : (s.local_receivers (m.type, m.sender)).length < fuel) :
    ∃ s2, MessageBus.unsubscribe_globally m.type cb
        (MessageBus.subscribe_globally m.type cb (MessageBus.subscribe_globally m.type cb s))
        = some s2
      ∧ MessageBus.discard_globally m.type cb
          (MessageBus.subscribe_globally m.type cb (MessageBus.subscribe_globally m.type cb s))
          = s2
      ∧ cb ∈ s2.global_receivers m.type
      ∧ (s2.global_receivers m.type).count cb = 1
      ∧ MessageBus.broadcastLive inertEnv fuel s2 m = some (s2, dispatchTrace s2 m)
      ∧ (dispatchTrace s2 m).count (cb, m) = 1 := by
  have h1 : (MessageBus.subscribe_globally m.type cb s).global_receivers m.type
      = s.global_receivers m.type ++ [cb] := Function.update_same _ _ _
  set ss := MessageBus.subscribe_globally m.type cb (MessageBus.subscribe_globally m.type cb s)
    with hss
  have hgl2 : ss.global_receivers m.type = (s.global_receivers m.type ++ [cb]) ++ [cb] := by
    rw [hss]
    show (Function.update (MessageBus.subscribe_globally m.type cb s).global_receivers m.type
        ((MessageBus.subscribe_globally m.type cb s).global_receivers m.type ++ [cb])) m.type = _
    rw [Function.update_same, h1]
  have hmem2 : cb ∈ ss.global_receivers m.type := by
    rw [hgl2]
    simp
  have herase : (ss.global_receivers m.type).erase cb = s.global_receivers m.type ++ [cb] := by
    rw [hgl2, List.append_assoc, List.erase_append_right _ hg, List.singleton_append,
      List.erase_cons_head]
  refine ⟨{ ss with
      global_receivers := Function.update ss.global_receivers m.type ((ss.global_receivers m.type).erase cb) },
    ?_, ?_, ?_, ?_, ?_, ?_⟩
  · simp only [MessageBus.unsubscribe_globally, if_pos hmem2]
  · simp only [MessageBus.discard_globally, if_pos hmem2, MessageBus.unsubscribe_globally,
      Option.getD_some]
  · show cb ∈ (Function.update ss.global_receivers m.type
        ((ss.global_receivers m.type).erase cb)) m.type
    rw [Function.update_same, herase]
    simp
  · show ((Function.update ss.global_receivers m.type
        ((ss.global_receivers m.type).erase cb)) m.type).count cb = 1
    rw [Function.update_same, herase, List.count_append, List.count_eq_zero_of_not_mem hg,
      List.count_singleton_self]
  · refine broadcastLive_inert fuel _ m ?_ ?_
    · show ((Function.update ss.global_receivers m.type
          ((ss.global_receivers m.type).erase cb)) m.type).length < fuel
      rw [Function.update_same, herase]
      simp only [List.length_append, List.length_singleton]
      omega
    · exact hfl
  · simp only [dispatchTrace, List.count_append, count_map_pair]
    rw [Function.update_same, herase, List.count_append, List.count_eq_zero_of_not_mem hg,
      List.count_singleton_self, show ss.local_receivers = s.local_receivers from rfl,
      List.count_eq_zero_of_not_mem hl]

/-- Witness for C10 on the empty bus: callback 4 registered twice for
type 0, unsubscribed once, still delivered exactly once. -/
theorem claim_duplicate_registration_single_removal_witness :
    ∃ s2, MessageBus.unsubscribe_globally 0 4
        (MessageBus.subscribe_globally 0 4 (MessageBus.subscribe_globally 0 4 mbEmpty)) = some s2
      ∧ MessageBus.discard_globally 0 4
          (MessageBus.subscribe_globally 0 4 (MessageBus.subscribe_globally 0 4 mbEmpty)) = s2
      ∧ 4 ∈ s2.global_receivers 0
      ∧ (s2.global_receivers 0).count 4 = 1
      ∧ MessageBus.broadcastLive inertEnv 3 s2 ⟨0, 6, 0⟩ = some (s2, dispatchTrace s2 ⟨0, 6, 0⟩)
      ∧ (dispatchTrace s2 ⟨0, 6, 0⟩).count (4, ⟨0, 6, 0⟩) = 1 :=
  claim_duplicate_registration_single_removal mbEmpty 4 ⟨0, 6, 0⟩ 3 (by decide) (by decide)
    (by decide) (by decide)
